import Mathlib

/-!
Shallow embedding of the Sheets-to-Discord embed renderer
(src/discord_embed_manager.py and the call site in
src/test_sheets-to-discord_bot.py).

Modelling conventions:
* JSON values decoded by the standard json.loads are modelled by the
  inductive type Json below; numeric payloads are modelled as integers
  (no verified statement depends on the value of a non-integer numeral).
* Python strings are Lean Strings; slicing s[:n] is truncate, s[1:] is
  dropFirst, str.strip() is pyStrip (the ASCII whitespace set space, tab,
  CR and LF; no verified statement depends on exotic whitespace),
  str.startswith is pyStartsWith.
* str(x) on a decoded JSON value is pyStr; Python truthiness is truthy;
  int(x) is pyInt (decimal literals with an optional sign, as produced
  for the color column; no verified statement depends on the value of the
  color field).
* Logging calls are side effects with no influence on the data flow and
  are omitted.
-/

/-- A decoded JSON value, as returned by json.loads. -/
inductive Json where
  | null : Json
  | bool (b : Bool) : Json
  | num (n : Int) : Json
  | str (s : String) : Json
  | arr (elems : List Json) : Json
  | obj (fields : List (String × Json)) : Json

/-- Whether the value is a JSON array (Python isinstance(x, list)). -/
def Json.isArr : Json → Bool
  | .arr _ => true
  | _ => false

/-- Python truthiness of a decoded JSON value. -/
def truthy : Json → Bool
  | .null => false
  | .bool b => b
  | .num n => n != 0
  | .str s => s != ""
  | .arr l => !l.isEmpty
  | .obj kvs => !kvs.isEmpty

mutual
/-- Python repr of a decoded JSON value (container element rendering for
str(); string escaping inside repr is not modelled - no verified
statement depends on the repr of a container cell). -/
def pyRepr : Json → String
  | .null => "None"
  | .bool true => "True"
  | .bool false => "False"
  | .num n => toString n
  | .str s => "\x27" ++ s ++ "\x27"
  | .arr l => "[" ++ pyReprList l ++ "]"
  | .obj kvs => "\x7b" ++ pyReprObj kvs ++ "\x7d"

/-- Comma-separated reprs of the elements of a JSON array. -/
def pyReprList : List Json → String
  | [] => ""
  | [j] => pyRepr j
  | j :: rest => pyRepr j ++ ", " ++ pyReprList rest

/-- Comma-separated reprs of the entries of a JSON object. -/
def pyReprObj : List (String × Json) → String
  | [] => ""
  | [kv] => "\x27" ++ kv.1 ++ "\x27: " ++ pyRepr kv.2
  | kv :: rest => "\x27" ++ kv.1 ++ "\x27: " ++ pyRepr kv.2 ++ ", " ++ pyReprObj rest
end

/-- Python str(x) on a decoded JSON value. -/
def pyStr : Json → String
  | .str s => s
  | j => pyRepr j

/-- Python slicing s[:n]. -/
def truncate (s : String) (n : Nat) : String := ⟨s.data.take n⟩

/-- Python slicing s[1:]. -/
def dropFirst (s : String) : String := ⟨s.data.drop 1⟩

/-- Python str.strip() for the ASCII whitespace characters. -/
def pyStrip (s : String) : String :=
  ⟨((s.data.dropWhile Char.isWhitespace).reverse.dropWhile Char.isWhitespace).reverse⟩

/-- Python str.startswith. -/
def pyStartsWith (s pre : String) : Bool := pre.data.isPrefixOf s.data

/-- Digit-string value for int(); none unless the (nonempty) string is
all ASCII digits. -/
def digitsToNat (cs : List Char) : Option Nat :=
  if cs.isEmpty then none
  else if cs.all Char.isDigit then
    some (cs.foldl (fun a c => a * 10 + (c.toNat - 48)) 0)
  else none

/-- Python int(s) on a string: strip, optional sign, decimal digits. -/
def parsePyInt (s : String) : Option Int :=
  match (pyStrip s).data with
  | '-' :: rest => (digitsToNat rest).map (fun n => -(n : Int))
  | '+' :: rest => (digitsToNat rest).map (fun n => (n : Int))
  | cs => (digitsToNat cs).map (fun n => (n : Int))

/-- Python int(x) on a decoded JSON value; none models the
ValueError/TypeError path of parse_embed_data's color handling. -/
def pyInt : Json → Option Int
  | .num n => some n
  | .bool b => some (if b then 1 else 0)
  | .str s => parsePyInt s
  | _ => none

/-- Per-row isinstance(row, list) loop of parse_json_cell: succeeds with
the typed rows only when every element of the top-level list is a list. -/
def rowsCheck : List Json → Option (List (List Json))
  | [] => some []
  | .arr cells :: rest => (rowsCheck rest).map (fun t => cells :: t)
  | _ :: _ => none

/-- parse_json_cell (discord_embed_manager.py, lines 35-67). The call to
json.loads is the stdlib boundary: the input is its decode result, none
when the blob is not syntactically valid JSON (the JSONDecodeError
branch). The function then rejects a non-list top level and any
non-list row, returning the whole table otherwise. -/
def parse_json_cell : Option Json → Option (List (List Json))
  | none => none
  | some (.arr rows) => rowsCheck rows
  | some _ => none

/-- validate_url (discord_embed_manager.py, lines 70-97): falsy input or
empty stripped string gives none; the stripped string must start with
http:// or https://, else none; otherwise the stripped string. The
field_name/row_idx arguments only feed logging and are omitted. -/
def validate_url (url : Json) : Option String :=
  if !truthy url then none
  else
    let url_str := pyStrip (pyStr url)
    if url_str == "" then none
    else if !(pyStartsWith url_str "http://" || pyStartsWith url_str "https://") then none
    else some url_str

/-- One name/value attachment pair of an embed spec (parse_embed_data
appends dicts with keys name and value). -/
structure EmbedField where
  name : String
  value : String
deriving DecidableEq, Inhabited

/-- One embed specification, the dict built per row by parse_embed_data. -/
structure EmbedSpec where
  title : String
  description : String
  title_url : Option String
  color : Int
  author : Option String
  author_url : Option String
  footer : String
  fields : List EmbedField
deriving DecidableEq, Inhabited

/-- Python row[i]; every use is guarded by a bounds check mirroring the
source, so the default is never observable. -/
def cellAt (row : List Json) (i : Nat) : Json := row.getD i Json.null

/-- The all_remaining_empty check of parse_embed_data (lines 171-176):
true when every column from nameIdx up to min(len(row), 57) is falsy. -/
def allRemainingEmpty (row : List Json) (nameIdx : Nat) : Bool :=
  (List.range' nameIdx (min row.length 57 - nameIdx)).all (fun i => !truthy (cellAt row i))

/-- The attachment-pair loop of parse_embed_data (lines 164-202).
The fuel argument counts the remaining iterations of
range(25) (the loop is entered with fuel 25 and fieldIdx 0); total is
the running total_chars. Stops with no further pair when the name index
reaches the row length, when every remaining column in range is falsy,
or when the truncated pair would push total past 6000. -/
def fieldsGo (row : List Json) : Nat → Nat → Nat → List EmbedField
  | 0, _, _ => []
  | fuel + 1, fieldIdx, total =>
    let nameIdx := 7 + fieldIdx * 2
    if row.length ≤ nameIdx then []
    else if allRemainingEmpty row nameIdx then []
    else
      let name := truncate (if nameIdx < row.length then pyStr (cellAt row nameIdx) else "") 256
      let value := truncate (if nameIdx + 1 < row.length then pyStr (cellAt row (nameIdx + 1)) else "") 1024
      if 6000 < total + (name.length + value.length) then []
      else ⟨name, value⟩ :: fieldsGo row fuel (fieldIdx + 1) (total + (name.length + value.length))

/-- Python truthiness of an Optional[str] value. -/
def optStrTruthy : Option String → Bool
  | none => false
  | some s => s != ""

/-- The per-row body of parse_embed_data (lines 133-213): fixed fields
with their truncations and URL validation, the color coercion, the
initial total_chars, and the attachment loop. -/
def buildEmbed (row : List Json) : EmbedSpec :=
  let title := if 0 < row.length then truncate (pyStr (cellAt row 0)) 256 else ""
  let description := if 1 < row.length then truncate (pyStr (cellAt row 1)) 4096 else ""
  let title_url := validate_url (if 2 < row.length then cellAt row 2 else Json.null)
  let color : Int :=
    if decide (3 < row.length) && truthy (cellAt row 3) then (pyInt (cellAt row 3)).getD 0 else 0
  let author := if decide (4 < row.length) && truthy (cellAt row 4) then
      some (truncate (pyStr (cellAt row 4)) 256) else none
  let author_url := validate_url (if 5 < row.length then cellAt row 5 else Json.null)
  let footer := if 6 < row.length then truncate (pyStr (cellAt row 6)) 2048 else ""
  let total0 := title.length + description.length + footer.length +
    (if optStrTruthy author then (author.getD "").length else 0)
  { title := title, description := description, title_url := title_url, color := color,
    author := author, author_url := author_url, footer := footer,
    fields := fieldsGo row 25 0 total0 }

/-- The row loop of parse_embed_data (lines 128-215): rows with fewer
than 7 columns are skipped (a logged warning, no error), every other row
contributes exactly one embed spec, in order. -/
def parseRows : List (List Json) → List EmbedSpec
  | [] => []
  | row :: rest => if row.length < 7 then parseRows rest else buildEmbed row :: parseRows rest

/-- parse_embed_data (discord_embed_manager.py, lines 100-215). -/
def parse_embed_data (data : List (List Json)) : List EmbedSpec :=
  if data.isEmpty then [] else parseRows data

/-- Character count of the attachment pairs of a spec. -/
def fieldsChars (fs : List EmbedField) : Nat :=
  (fs.map (fun f => f.name.length + f.value.length)).sum

/-- The character total the 6000 limit speaks about: title + body +
footer + author (when present) + all attachment names and values. -/
def totalChars (e : EmbedSpec) : Nat :=
  e.title.length + e.description.length + e.footer.length +
    (match e.author with | some a => a.length | none => 0) + fieldsChars e.fields

/-- The truncated character count of the attachment pair at a given pair
index, exactly as the loop computes it before the 6000 check. -/
def pairChars (row : List Json) (fieldIdx : Nat) : Nat :=
  (truncate (if 7 + fieldIdx * 2 < row.length then pyStr (cellAt row (7 + fieldIdx * 2)) else "") 256).length
  + (truncate (if 7 + fieldIdx * 2 + 1 < row.length then pyStr (cellAt row (7 + fieldIdx * 2 + 1)) else "") 1024).length

/-- The zero-width space used by create_discord_embed as a placeholder
for empty labels. -/
def zwsp : String := "\u200B"

/-- One rendered attachment field as passed to embed.add_field. -/
structure RenderedField where
  name : String
  value : String
  inline : Bool
deriving DecidableEq, Inhabited

/-- The observable content of the discord.Embed object built by
create_discord_embed. -/
structure RenderedEmbed where
  title : Option String
  description : Option String
  url : Option String
  color : Int
  author : Option (String × Option String)
  footer : Option String
  fields : List RenderedField
deriving DecidableEq, Inhabited

/-- Python x or None on a string. -/
def orNone (s : String) : Option String := if s == "" then none else some s

/-- The field loop of create_discord_embed (lines 252-271): a pair with
both name and value empty is skipped; a leading tilde forces
inline=False and is removed from the displayed name; empty displayed
names and values fall back to the zero-width space. -/
def renderField (f : EmbedField) : Option RenderedField :=
  if f.name == "" && f.value == "" then none
  else
    let inline := !pyStartsWith f.name "~"
    let fname := if pyStartsWith f.name "~" then dropFirst f.name else f.name
    some ⟨if fname == "" then zwsp else fname,
          if f.value == "" then zwsp else f.value, inline⟩

/-- create_discord_embed (discord_embed_manager.py, lines 218-273). -/
def create_discord_embed (e : EmbedSpec) : RenderedEmbed :=
  { title := orNone e.title
    description := orNone e.description
    url := e.title_url
    color := e.color
    author := if optStrTruthy e.author || optStrTruthy e.author_url then
        some (if optStrTruthy e.author then e.author.getD "" else zwsp, e.author_url)
      else none
    footer := if e.footer != "" then some e.footer else none
    fields := e.fields.filterMap renderField }

/-- The mutable state of EmbedNavigationView (discord_embed_manager.py,
lines 276-295): the tile list, current page, cached page count, owning
user id, whether a refresh callback was supplied, and whether the view
still carries its controls (set to false by the refresh no-data branch
that edits the message with view=None). -/
structure ViewState where
  embeds_spec : List EmbedSpec
  current_page : Nat
  total_pages : Nat
  user_id : Nat
  has_refresh : Bool
  active : Bool
deriving DecidableEq, Inhabited

/-- The constructor of EmbedNavigationView: total_pages is the length of
the supplied tile list and the view starts active. -/
def mkView (spec : List EmbedSpec) (page : Nat) (uid : Nat) (hasRefresh : Bool) : ViewState :=
  ⟨spec, page, spec.length, uid, hasRefresh, true⟩

/-- goto_top (lines 349-358): rejected for a non-owning user, else jump
to page 0. -/
def goto_top (s : ViewState) (uid : Nat) : ViewState :=
  if uid ≠ s.user_id then s else { s with current_page := 0 }

/-- previous_page (lines 360-372): rejected for a non-owning user; a
silent no-op at page 0, else one page back. -/
def previous_page (s : ViewState) (uid : Nat) : ViewState :=
  if uid ≠ s.user_id then s
  else if 0 < s.current_page then { s with current_page := s.current_page - 1 }
  else s

/-- next_page (lines 374-386): rejected for a non-owning user; a silent
no-op at the last page, else one page forward. (With Nat truncated
subtraction the guard agrees with the Python comparison against
total_pages - 1 including the vacuous total_pages = 0 case.) -/
def next_page (s : ViewState) (uid : Nat) : ViewState :=
  if uid ≠ s.user_id then s
  else if s.current_page < s.total_pages - 1 then { s with current_page := s.current_page + 1 }
  else s

/-- goto_bottom (lines 388-397): rejected for a non-owning user, else
jump to the last page. -/
def goto_bottom (s : ViewState) (uid : Nat) : ViewState :=
  if uid ≠ s.user_id then s else { s with current_page := s.total_pages - 1 }

/-- Outcome of awaiting the refresh callback, at the json.loads
boundary: noData models a falsy return (None or the empty string),
raised models the exception path of the surrounding try, and fetched d
models a truthy string whose JSON decode result is d. -/
inductive FetchResult where
  | noData : FetchResult
  | raised : FetchResult
  | fetched (decoded : Option Json) : FetchResult

/-- refresh_data (lines 399-449): rejected for a non-owning user; a
no-op without a callback; falsy callback result, failed parse, or a
falsy (empty) parsed table leave the state unchanged; an empty embed
list replaces the message with a terminal no-data display (controls
removed, tiles untouched); otherwise the tile list is swapped wholesale,
total_pages recomputed, and current_page clamped to the new last page. -/
def refresh_data (s : ViewState) (uid : Nat) (f : FetchResult) : ViewState :=
  if uid ≠ s.user_id then s
  else if !s.has_refresh then s
  else match f with
    | .noData => s
    | .raised => s
    | .fetched d =>
      match parse_json_cell d with
      | none => s
      | some table =>
        if table.isEmpty then s
        else
          let new_embeds_spec := parse_embed_data table
          if new_embeds_spec.isEmpty then { s with active := false }
          else
            { s with embeds_spec := new_embeds_spec,
                     total_pages := new_embeds_spec.length,
                     current_page :=
                       if new_embeds_spec.length ≤ s.current_page then new_embeds_spec.length - 1
                       else s.current_page }

/-- The positional parameter names of display_embeds
(discord_embed_manager.py, line 452). -/
def display_embeds_params : List String := ["interaction", "json_string", "refresh_callback"]

/-- display_embeds declares no **kwargs catch-all. -/
def display_embeds_has_var_kw : Bool := false

/-- The keyword-argument names of the display_embeds call inside
test_command (test_sheets-to-discord_bot.py, lines 164-169). -/
def test_command_keywords : List String := ["json_string", "refresh_callback", "additional_buttons"]

/-- Python keyword binding at a call: without a **kwargs catch-all,
every keyword name must match a declared parameter; an unexpected
keyword raises TypeError before the callee body runs. -/
def keywords_bind (params : List String) (hasVarKw : Bool) (kws : List String) : Bool :=
  hasVarKw || kws.all (fun k => params.contains k)

/-- A 4096-character string (for the description column). -/
def bigA : String := ⟨List.replicate 4096 'a'⟩

/-- A 2048-character string (for the footer column). -/
def bigB : String := ⟨List.replicate 2048 'b'⟩

/-- A 7-column row whose truncated fixed fields alone total
4096 + 2048 = 6144 characters. -/
def rowCap7 : List Json :=
  [Json.str "", Json.str bigA, Json.str "", Json.str "", Json.str "", Json.str "", Json.str bigB]

/-- rowCap7 followed by one non-empty attachment pair. -/
def rowCap9 : List Json := rowCap7 ++ [Json.str "N", Json.str "V"]

/-- A row carrying a tilde-only attachment name. -/
def rowTilde : List Json :=
  [Json.str "T", Json.str "D", Json.str "", Json.str "", Json.str "", Json.str "", Json.str "F",
   Json.str "~", Json.str "V"]

/-- A row whose title link starts with a space followed by http://. -/
def rowSpaceUrl : List Json :=
  [Json.str "T", Json.str "D", Json.str " http://ex", Json.str "", Json.str "", Json.str "",
   Json.str "F"]

/-- A concrete one-row table for the refresh witness. -/
def tableW : List (List Json) :=
  [[Json.str "T", Json.str "D", Json.str "", Json.str "", Json.str "", Json.str "",
    Json.str "F"]]

/-- The decode result of a fetched blob holding tableW. -/
def decodedW : Option Json :=
  some (Json.arr [Json.arr [Json.str "T", Json.str "D", Json.str "", Json.str "", Json.str "",
    Json.str "", Json.str "F"]])

/-- A concrete active view over two tiles at page 1 owned by user 42. -/
def stateW : ViewState := ⟨[default, default], 1, 2, 42, true, true⟩

/-- A concrete active view over three tiles at page 1 owned by user 42. -/
def stateNav : ViewState := ⟨[default, default, default], 1, 3, 42, true, true⟩

/-- Length of a string built from an explicit character list. -/
theorem string_length_mk (l : List Char) : String.length ⟨l⟩ = l.length := rfl

/-- Length of the underlying character list of a string. -/
theorem string_length_data (s : String) : s.data.length = s.length := rfl

/-- Length of a Python slice s[:n]. -/
theorem truncate_length (s : String) (n : Nat) : (truncate s n).length = min n s.length := by
  show (String.mk (s.data.take n)).length = min n s.length
  rw [string_length_mk, List.length_take, string_length_data]

/-- bigA has 4096 characters. -/
theorem bigA_length : bigA.length = 4096 := by
  rw [show bigA = ⟨List.replicate 4096 'a'⟩ from rfl, string_length_mk, List.length_replicate]

/-- bigB has 2048 characters. -/
theorem bigB_length : bigB.length = 2048 := by
  rw [show bigB = ⟨List.replicate 2048 'b'⟩ from rfl, string_length_mk, List.length_replicate]

/-- str() of a decoded JSON string is the string itself. -/
theorem pyStr_str (s : String) : pyStr (Json.str s) = s := rfl

/-- The embed spec built from rowCap7: empty title and author, the
4096-character description, the 2048-character footer, no attachment
pairs (the name index 7 equals the row length). -/
theorem buildEmbed_rowCap7 :
    buildEmbed rowCap7 =
      { title := "", description := truncate bigA 4096, title_url := none, color := 0,
        author := none, author_url := none, footer := truncate bigB 2048, fields := [] } := rfl

/-- Characterization of one step of the attachment loop: at a reached
pair index the scan stops without producing a pair exactly when the name
index is at or beyond the row length, or every remaining column in range
is falsy, or the truncated pair would push the running total past 6000. -/
theorem fieldsGo_succ_eq_nil_iff (row : List Json) (fuel fieldIdx total : Nat) :
    fieldsGo row (fuel + 1) fieldIdx total = [] ↔
      row.length ≤ 7 + fieldIdx * 2 ∨ allRemainingEmpty row (7 + fieldIdx * 2) = true
        ∨ 6000 < total + pairChars row fieldIdx := by
  simp only [fieldsGo, pairChars]
  split_ifs with h1 h2 h3 <;> simp_all

/-- The row loop keeps exactly the rows with at least 7 columns, in
order, mapping each through the row body. -/
theorem parseRows_eq (data : List (List Json)) :
    parseRows data = (data.filter (fun r => decide (7 ≤ r.length))).map buildEmbed := by
  induction data with
  | nil => rfl
  | cons r rs ih =>
    by_cases h : r.length < 7
    · simp [parseRows, h, Nat.not_le.mpr h, ih]
    · simp [parseRows, h, Nat.not_lt.mp h, ih]

/-- Every attachment pair the loop emits carries as its name the
truncated str() of some cell of the row - in particular no character,
such as a leading tilde, is stripped by the builder. -/
theorem fieldsGo_name_shape (row : List Json) :
    ∀ (fuel i t : Nat), ∀ fd ∈ fieldsGo row fuel i t,
      ∃ j, fd.name = truncate (pyStr (cellAt row j)) 256 := by
  intro fuel
  induction fuel with
  | zero => intro i t fd hfd; simp [fieldsGo] at hfd
  | succ n ih =>
    intro i t fd hfd
    simp only [fieldsGo] at hfd
    split_ifs at hfd <;>
      first
        | exact absurd hfd (List.not_mem_nil fd)
        | omega
        | (rcases List.mem_cons.mp hfd with h | h
           · exact ⟨7 + i * 2, by rw [h]⟩
           · exact ih (i + 1) _ fd h)

/-- The row check of parse_json_cell rejects any list containing a
non-list element. -/
theorem rowsCheck_bad :
    ∀ rows : List Json, (∃ r ∈ rows, r.isArr = false) → rowsCheck rows = none := by
  intro rows
  induction rows with
  | nil => rintro ⟨r, hr, _⟩; simp at hr
  | cons a as ih =>
    rintro ⟨r, hr, hbad⟩
    cases a with
    | null => rfl
    | bool b => rfl
    | num n => rfl
    | str s => rfl
    | obj kvs => rfl
    | arr cells =>
      rcases List.mem_cons.mp hr with h | h
      · rw [h] at hbad; simp [Json.isArr] at hbad
      · simp [rowsCheck, ih ⟨r, h, hbad⟩]

/-- The row check of parse_json_cell returns the full table whenever
every element is a list. -/
theorem rowsCheck_ok :
    ∀ rows : List Json, (∀ r ∈ rows, r.isArr = true) →
      ∃ table, rowsCheck rows = some table ∧ table.map Json.arr = rows := by
  intro rows
  induction rows with
  | nil => intro _; exact ⟨[], rfl, rfl⟩
  | cons a as ih =>
    intro h
    have ha := h a (List.mem_cons_self a as)
    cases a with
    | null => simp [Json.isArr] at ha
    | bool b => simp [Json.isArr] at ha
    | num n => simp [Json.isArr] at ha
    | str s => simp [Json.isArr] at ha
    | obj kvs => simp [Json.isArr] at ha
    | arr cells =>
      obtain ⟨t, ht, hmap⟩ := ih (fun r hr => h r (List.mem_cons_of_mem _ hr))
      exact ⟨cells :: t, by simp [rowsCheck, ht], by simp [hmap]⟩

/-- A string starting with a tilde is nonempty. -/
theorem pyStartsWith_tilde_name_ne (s : String) (h : pyStartsWith s "~" = true) : s ≠ "" := by
  intro he
  rw [he] at h
  exact absurd h (by decide)

/-- C1: the claim says every TileSpec produced by the Tile Builder has a
total character count (title + body + footer + author + all attachment
names and values) of at most 6000. The code enforces the 6000 cap only
when ingesting attachment pairs, never on the fixed fields, whose
truncation caps alone sum to 6656: this theorem evaluates the code at a
7-column row with a 4096-character body and a 2048-character footer,
whose produced TileSpec totals 6144 characters, exceeding 6000 and
contradicting both the claim and the docstring of parse_embed_data
(Total embed limit: 6000 characters). -/
theorem c1_total_chars_exceed_6000 :
    totalChars ((parse_embed_data [rowCap7]).getD 0 default) = 6144
    ∧ 6000 < totalChars ((parse_embed_data [rowCap7]).getD 0 default) := by
  have hl : rowCap7.length = 7 := rfl
  have h : (parse_embed_data [rowCap7]).getD 0 default = buildEmbed rowCap7 := by
    simp [parse_embed_data, parseRows, hl]
  rw [h, buildEmbed_rowCap7]
  constructor <;> simp [totalChars, fieldsChars, truncate_length, bigA_length, bigB_length]

/-- C2 (amended): at a reached pair index, the attachment scan stops
without producing a pair exactly when (a) the name-column index is at or
beyond the row length, (b) every column from that name index up to
min(row length, 57) is empty/falsy, or (c) the truncated pair would push
the running character total past 6000; in particular, absent the cap, an
empty pair followed by a non-empty column in range does not stop the
scan. -/
theorem c2_scan_stop_iff (row : List Json) (fuel fieldIdx total : Nat) :
    fieldsGo row (fuel + 1) fieldIdx total = [] ↔
      row.length ≤ 7 + fieldIdx * 2 ∨ allRemainingEmpty row (7 + fieldIdx * 2) = true
        ∨ 6000 < total + pairChars row fieldIdx :=
  fieldsGo_succ_eq_nil_iff row fuel fieldIdx total

/-- C2 counterexample: on the 9-column row rowCap9 the scan stops at pair
index 0 without producing a pair (the 6000 cap), although the name index
7 is within the row and column 7 is non-empty, so neither stated stop
condition (a) nor (b) holds - refuting the claimed exactly-when. -/
theorem c2_cap_stop_without_pair :
    (buildEmbed rowCap9).fields = []
    ∧ ¬ (rowCap9.length ≤ 7 + 0 * 2)
    ∧ allRemainingEmpty rowCap9 (7 + 0 * 2) = false := by
  refine ⟨?_, by decide, by decide⟩
  have hlen : rowCap9.length = 9 := rfl
  have hc0 : cellAt rowCap9 0 = Json.str "" := rfl
  have hc1 : cellAt rowCap9 1 = Json.str bigA := rfl
  have hc4 : cellAt rowCap9 4 = Json.str "" := rfl
  have hc6 : cellAt rowCap9 6 = Json.str bigB := rfl
  simp only [buildEmbed, hlen, hc0, hc1, hc4, hc6, pyStr_str, truthy, optStrTruthy]
  norm_num [truncate_length, bigA_length, bigB_length]
  exact (fieldsGo_succ_eq_nil_iff rowCap9 24 0 6144).mpr (by decide)

/-- C3 (amended): the builder carries the tilde in the TileSpec
attachment name (every emitted name is the truncated cell text); the
stripping and the full-width marking happen in the renderer: for every
attachment whose name begins with a tilde, the rendered field has
inline=false and displays the name with the tilde dropped, substituting
the zero-width space when the remainder is empty (a name of exactly a
tilde). -/
theorem c3_tilde_render :
    (∀ f : EmbedField, pyStartsWith f.name "~" = true →
      renderField f = some ⟨if dropFirst f.name == "" then zwsp else dropFirst f.name,
                            if f.value == "" then zwsp else f.value, false⟩)
    ∧ (∀ (row : List Json) (fuel i t : Nat), ∀ fd ∈ fieldsGo row fuel i t,
        ∃ j, fd.name = truncate (pyStr (cellAt row j)) 256) := by
  constructor
  · intro f h
    have hne : f.name ≠ "" := pyStartsWith_tilde_name_ne f.name h
    have hb : (f.name == "") = false := beq_eq_false_iff_ne.mpr hne
    simp [renderField, hb, h]
  · exact fun row => fieldsGo_name_shape row

/-- C3 counterexample: the TileSpec produced for rowTilde still carries
the tilde character in the attachment name (no fullWidth flag exists in
the spec), and rendering the tilde-only name displays the zero-width
space, which is not the empty string - refuting both the
flag-not-character claim and the empty-displayed-name claim. -/
theorem c3_tilde_carried_and_zwsp :
    ((parse_embed_data [rowTilde]).getD 0 default).fields = [⟨"~", "V"⟩]
    ∧ renderField ⟨"~", "V"⟩ = some ⟨zwsp, "V", false⟩
    ∧ zwsp ≠ "" := by decide

/-- C3 witness: the amended claim evaluated on the attachment pair with
name tilde-N and value V. -/
theorem c3_tilde_render_witness :
    renderField ⟨"~N", "V"⟩ = some ⟨"N", "V", false⟩ := by
  have h := c3_tilde_render.1 ⟨"~N", "V"⟩ (by decide)
  simpa using h

/-- C4: for an active controller with n tiles at index i in [0, n-1], a
Next event from the owning viewer yields index min(i+1, n-1), Prev
yields max(i-1, 0) (truncated subtraction on Nat), First yields 0, Last
yields n-1; Prev at 0 and Next at n-1 leave the state unchanged and
never wrap. -/
theorem c4_navigation (s : ViewState) (n i : Nat)
    (hn : s.total_pages = n) (hlen : s.embeds_spec.length = n)
    (hi : s.current_page = i) (hin : i < n) :
    (next_page s s.user_id).current_page = min (i + 1) (n - 1)
    ∧ (previous_page s s.user_id).current_page = i - 1
    ∧ (goto_top s s.user_id).current_page = 0
    ∧ (goto_bottom s s.user_id).current_page = n - 1
    ∧ (i = n - 1 → next_page s s.user_id = s)
    ∧ (i = 0 → previous_page s s.user_id = s) := by
  have hne : ¬ (s.user_id ≠ s.user_id) := fun h => h rfl
  subst hn hi
  refine ⟨?_, ?_, ?_, ?_, ?_, ?_⟩
  · simp only [next_page, if_neg hne]
    split_ifs with h
    · show s.current_page + 1 = min (s.current_page + 1) (s.total_pages - 1)
      omega
    · omega
  · simp only [previous_page, if_neg hne]
    split_ifs with h
    · show s.current_page - 1 = s.current_page - 1
      rfl
    · omega
  · simp [goto_top, if_neg hne]
  · simp [goto_bottom, if_neg hne]
  · intro hlast
    simp only [next_page, if_neg hne]
    rw [if_neg (by omega)]
  · intro hfirst
    simp only [previous_page, if_neg hne]
    rw [if_neg (by omega)]

/-- C4 witness: the navigation equations evaluated on a concrete view
with three tiles at page 1. -/
theorem c4_navigation_witness :
    (next_page stateNav stateNav.user_id).current_page = min (1 + 1) (3 - 1)
    ∧ (previous_page stateNav stateNav.user_id).current_page = 1 - 1
    ∧ (goto_top stateNav stateNav.user_id).current_page = 0
    ∧ (goto_bottom stateNav stateNav.user_id).current_page = 3 - 1
    ∧ (1 = 3 - 1 → next_page stateNav stateNav.user_id = stateNav)
    ∧ (1 = 0 → previous_page stateNav stateNav.user_id = stateNav) :=
  c4_navigation stateNav 3 1 rfl rfl rfl (by decide)

/-- C5: a refresh triggered by the owning viewer leaves tiles and index
unchanged when the callback yields no data (or raises) or when the
parser rejects the data; when the fetched data parses to a non-empty
tile list the tile list is replaced wholesale and the index becomes
min(old index, new length - 1). -/
theorem c5_refresh (s : ViewState) (hr : s.has_refresh = true) :
    refresh_data s s.user_id .noData = s
    ∧ refresh_data s s.user_id .raised = s
    ∧ (∀ d, parse_json_cell d = none → refresh_data s s.user_id (.fetched d) = s)
    ∧ (∀ d table, parse_json_cell d = some table → parse_embed_data table ≠ [] →
        (refresh_data s s.user_id (.fetched d)).embeds_spec = parse_embed_data table
        ∧ (refresh_data s s.user_id (.fetched d)).current_page
            = min s.current_page ((parse_embed_data table).length - 1)) := by
  have hne : ¬ (s.user_id ≠ s.user_id) := fun h => h rfl
  refine ⟨?_, ?_, ?_, ?_⟩
  · simp [refresh_data, if_neg hne, hr]
  · simp [refresh_data, if_neg hne, hr]
  · intro d hd
    simp [refresh_data, if_neg hne, hr, hd]
  · intro d table hd hnempty
    have htable : table ≠ [] := by
      intro h
      rw [h] at hnempty
      exact hnempty rfl
    have hpos : 0 < (parse_embed_data table).length := List.length_pos.mpr hnempty
    simp only [refresh_data, if_neg hne, hr, Bool.not_true, Bool.false_eq_true, if_false, hd]
    rw [if_neg (by simpa [List.isEmpty_iff] using htable),
        if_neg (by simpa [List.isEmpty_iff] using hnempty)]
    refine ⟨rfl, ?_⟩
    simp only
    split_ifs with h <;> omega

/-- C5 witness: refreshing a two-tile view at page 1 with data holding
one row replaces the tiles and clamps the page to min(1, 0) = 0. -/
theorem c5_refresh_witness :
    (refresh_data stateW stateW.user_id (.fetched decodedW)).embeds_spec = parse_embed_data tableW
    ∧ (refresh_data stateW stateW.user_id (.fetched decodedW)).current_page
        = min stateW.current_page ((parse_embed_data tableW).length - 1) :=
  (c5_refresh stateW rfl).2.2.2 decodedW tableW rfl (by decide)

/-- C6: every navigation or refresh event triggered by an identity
different from the owning viewer leaves the controller state entirely
unchanged (the rejection notice is an ephemeral message, a side effect
outside the state). -/
theorem c6_unauthorized (s : ViewState) (uid : Nat) (h : uid ≠ s.user_id) :
    goto_top s uid = s ∧ previous_page s uid = s ∧ next_page s uid = s
    ∧ goto_bottom s uid = s ∧ ∀ f : FetchResult, refresh_data s uid f = s := by
  refine ⟨?_, ?_, ?_, ?_, fun f => ?_⟩ <;>
    simp [goto_top, previous_page, next_page, goto_bottom, refresh_data, if_pos h]

/-- C6 witness: user 7 triggering each control on a view owned by user
42 changes nothing. -/
theorem c6_unauthorized_witness :
    goto_top stateNav 7 = stateNav ∧ previous_page stateNav 7 = stateNav
    ∧ next_page stateNav 7 = stateNav ∧ goto_bottom stateNav 7 = stateNav
    ∧ refresh_data stateNav 7 .noData = stateNav := by
  have h := c6_unauthorized stateNav 7 (by decide)
  exact ⟨h.1, h.2.1, h.2.2.1, h.2.2.2.1, h.2.2.2.2 .noData⟩

/-- C7: a row yields a TileSpec if and only if it has at least 7
columns; the output has exactly one spec per such row, in input order
(short rows are skipped, and the total function raises no error). -/
theorem c7_row_filter (data : List (List Json)) :
    parse_embed_data data = (data.filter (fun r => decide (7 ≤ r.length))).map buildEmbed := by
  cases data with
  | nil => rfl
  | cons r rs =>
    simp only [parse_embed_data, List.isEmpty_cons, if_false]
    exact parseRows_eq (r :: rs)

/-- C8 (amended): a link value whose string form, after stripping
leading and trailing whitespace, starts with neither http:// nor
https:// always resolves to an absent link; validation applies to the
stripped string, and both TileSpec link fields are exactly the
validation results of their columns. -/
theorem c8_url_stripped :
    (∀ c : Json, pyStartsWith (pyStrip (pyStr c)) "http://" = false →
        pyStartsWith (pyStrip (pyStr c)) "https://" = false → validate_url c = none)
    ∧ (∀ row : List Json,
        (buildEmbed row).title_url = validate_url (if 2 < row.length then cellAt row 2 else Json.null)
        ∧ (buildEmbed row).author_url = validate_url (if 5 < row.length then cellAt row 5 else Json.null)) := by
  constructor
  · intro c h1 h2
    simp only [validate_url, h1, h2]
    split_ifs <;> simp_all
  · intro row
    exact ⟨rfl, rfl⟩

/-- C8 counterexample: the non-empty title link value of rowSpaceUrl (a
space followed by http://ex) starts with neither http:// nor https://,
yet the produced TileSpec records the link as present (the code strips
before checking) - refuting the claim as stated. -/
theorem c8_space_url_accepted :
    ((parse_embed_data [rowSpaceUrl]).getD 0 default).title_url = some "http://ex"
    ∧ pyStartsWith " http://ex" "http://" = false
    ∧ pyStartsWith " http://ex" "https://" = false
    ∧ " http://ex" ≠ "" := by decide

/-- C8 witness: the amended claim evaluated on the string ftp://x. -/
theorem c8_url_stripped_witness :
    validate_url (Json.str "ftp://x") = none :=
  c8_url_stripped.1 (Json.str "ftp://x") (by decide) (by decide)

/-- C9: the Cell Parser fails, returning none with no partial result,
if and only if the blob is not syntactically valid JSON (the decode
boundary yields none), or the top-level value is not a list, or some
element of the top-level list is not a list; on any other input it
returns the decoded table in full. -/
theorem c9_parse_json_cell :
    parse_json_cell none = none
    ∧ (∀ v : Json, v.isArr = false → parse_json_cell (some v) = none)
    ∧ (∀ rows : List Json, (∃ r ∈ rows, r.isArr = false) →
        parse_json_cell (some (Json.arr rows)) = none)
    ∧ (∀ rows : List Json, (∀ r ∈ rows, r.isArr = true) →
        ∃ table, parse_json_cell (some (Json.arr rows)) = some table
          ∧ table.map Json.arr = rows) := by
  refine ⟨rfl, ?_, ?_, ?_⟩
  · intro v hv
    cases v <;> first | rfl | simp [Json.isArr] at hv
  · intro rows hex
    exact rowsCheck_bad rows hex
  · intro rows hall
    exact rowsCheck_ok rows hall

/-- C9 witness: a top-level list holding the non-list 3 is rejected. -/
theorem c9_parse_json_cell_witness :
    parse_json_cell (some (Json.arr [Json.num 3])) = none :=
  c9_parse_json_cell.2.2.1 [Json.num 3] ⟨Json.num 3, List.mem_singleton.mpr rfl, rfl⟩

/-- C10: display_embeds accepts exactly the parameters interaction,
json_string and refresh_callback with no keyword catch-all, while the
test bot calls it with the extra keyword additional_buttons, so the
keyword binding fails and every invocation of the test command raises
TypeError before the callee body (and hence any fetch, parse or
display) runs. -/
theorem c10_extra_keyword_rejected :
    keywords_bind display_embeds_params display_embeds_has_var_kw test_command_keywords = false
    ∧ display_embeds_params.contains "additional_buttons" = false := by decide
